import Mathlib

/-!
Verification of the House-Price-Predictor EDA repository.

Shallow embedding of the three source files:
  * `src/ingest_data.py`            — zip ingestion (`ZipDataIngestor.ingest`,
    `DataIngestorFactory.get_data_ingestor`);
  * `analysis/analyze_src/basic_data_inspection.py` — inspection strategies
    (`DataTypeInspectionStrategy.inspect`, `SummaryStatisticsInspectionStrategy.inspect`);
  * `analysis/analyze_src/bivariate_analysis.py`    — bivariate plotting strategies
    (`NumericalVsNumericalAnalysis.analyze`, `CategoricalVsNumericalStrategyAnalysis.analyze`).

Python dataframes become `Table` (a header of column names plus a list of rows of
cells); the filesystem seen by the ingestor becomes `FileSys` (archives and
directories as association lists); matplotlib/seaborn rendering state becomes a
`Plot` record holding exactly the data the program supplies to the plotting
subsystem (figure size, axis bindings, point data, title, labels, tick rotation).
Library calls that the source delegates to (pandas `read_csv`, `info`, `describe`,
seaborn `scatterplot`) are modelled from their documented semantics; each call
threads the dataframe through unchanged, reflecting that these calls are
documented read-only on the frame.
-/

set_option autoImplicit false

namespace HousePrice

/-- A cell of a tabular dataset: a number, a string, or a missing value (NaN/NA). -/
inductive Value where
  | num (x : Int)
  | str (s : String)
  | null
deriving DecidableEq

/-- Returns `true` exactly on the missing value (pandas NA). -/
def Value.isNull : Value → Bool
  | Value.null => true
  | _ => false

/-- An in-memory tabular dataset (pandas `DataFrame`): named columns in order,
and an ordered list of rows of cells. -/
structure Table where
  header : List String
  rows : List (List Value)
deriving DecidableEq

/-- Index of the first column with the given name, if any. -/
def Table.colIndex (df : Table) (c : String) : Option Nat :=
  df.header.findIdx? (fun n => n = c)

/-- A column is numeric when none of its cells is a string (pandas dtype
inference for a CSV column whose entries all parse as numbers). -/
def Table.colIsNumeric (df : Table) (i : Nat) : Bool :=
  df.rows.all (fun r => match r.getD i Value.null with
    | Value.str _ => false
    | _ => true)

/-- The parsed content of a CSV file: the header line and the data rows. -/
structure CSVData where
  header : List String
  dataRows : List (List Value)
deriving DecidableEq

/-- pandas `read_csv`: first line becomes the column names, remaining lines the rows. -/
def readCsvTable (c : CSVData) : Table :=
  { header := c.header, rows := c.dataRows }

/-! ### Bivariate analysis (`bivariate_analysis.py`) -/

/-- Errors surfaced by an `analyze` call.  The source performs no column check of
its own; when a feature name is absent, seaborn's `scatterplot` raises a
`ValueError` naming the value it could not interpret (`libraryError`).
`unknownColumn` is the spec's `UnknownColumnError`; it exists in the taxonomy so
the spec's claim is statable, and the embedded code never produces it. -/
inductive AnalyzeError where
  | libraryError (col : String)
  | unknownColumn (col : String)
deriving DecidableEq

/-- The data this system hands to the plotting subsystem: figure size, axis
bindings (column names and the bound point data), title and axis labels, x-tick
rotation, and whether `show` was called. -/
structure Plot where
  width : Nat
  height : Nat
  xcol : String
  ycol : String
  points : List (Value × Value)
  title : String
  xlabel : String
  ylabel : String
  xtickRotation : Int
  shown : Bool
deriving DecidableEq

/-- Model of `plt.figure(figsize=(w, h))`: a fresh figure with nothing drawn on it. -/
def plt_figure (w h : Nat) : Plot :=
  { width := w, height := h, xcol := "", ycol := "", points := [],
    title := "", xlabel := "", ylabel := "", xtickRotation := 0, shown := false }

/-- Model of `sns.scatterplot(x=x, y=y, data=df)`: resolves both column names against the
frame and binds the per-row (x, y) pairs; a name that is not a column raises the
library's `ValueError` naming it (x is interpreted first).  The frame is
returned unchanged: seaborn reads the data and never writes it. -/
def sns_scatterplot (df : Table) (x y : String) :
    Except AnalyzeError (List (Value × Value)) × Table :=
  match df.colIndex x with
  | none => (Except.error (AnalyzeError.libraryError x), df)
  | some i =>
    match df.colIndex y with
    | none => (Except.error (AnalyzeError.libraryError y), df)
    | some j =>
      (Except.ok (df.rows.map (fun r => (r.getD i Value.null, r.getD j Value.null))), df)

/-- Model of `plt.xticks(rotation=r)`. -/
def plt_xticks (p : Plot) (r : Int) : Plot := { p with xtickRotation := r }

/-- Model of `plt.show()`. -/
def plt_show (p : Plot) : Plot := { p with shown := true }

/-- Embedding of `NumericalVsNumericalAnalysis.analyze(df, feature1, feature2)`:
figure(10,6); scatterplot; title "feature1 vs feature2"; xlabel; ylabel; show.
Returns the rendering outcome together with the (unchanged) frame. -/
def NumericalVsNumericalAnalysis.analyze (df : Table) (feature1 feature2 : String) :
    Except AnalyzeError Plot × Table :=
  let fig := plt_figure 10 6
  match sns_scatterplot df feature1 feature2 with
  | (Except.error e, df1) => (Except.error e, df1)
  | (Except.ok pts, df1) =>
    let fig1 := { fig with xcol := feature1, ycol := feature2, points := pts }
    let fig2 := { fig1 with title := feature1 ++ " vs " ++ feature2 }
    let fig3 := { fig2 with xlabel := feature1 }
    let fig4 := { fig3 with ylabel := feature2 }
    (Except.ok (plt_show fig4), df1)

/-- Embedding of `CategoricalVsNumericalStrategyAnalysis.analyze(df, feature1, feature2)`:
identical to the numerical strategy except for `plt.xticks(rotation=45)` before
`plt.show()`. -/
def CategoricalVsNumericalStrategyAnalysis.analyze (df : Table) (feature1 feature2 : String) :
    Except AnalyzeError Plot × Table :=
  let fig := plt_figure 10 6
  match sns_scatterplot df feature1 feature2 with
  | (Except.error e, df1) => (Except.error e, df1)
  | (Except.ok pts, df1) =>
    let fig1 := { fig with xcol := feature1, ycol := feature2, points := pts }
    let fig2 := { fig1 with title := feature1 ++ " vs " ++ feature2 }
    let fig3 := { fig2 with xlabel := feature1 }
    let fig4 := { fig3 with ylabel := feature2 }
    let fig5 := plt_xticks fig4 45
    (Except.ok (plt_show fig5), df1)

/-- Rotating the x-tick labels of a finished plot by 45 degrees (the only step
the categorical strategy adds to the numerical one). -/
def rotateXTicks45 (p : Plot) : Plot := plt_xticks p 45

/-! ### Data inspection (`basic_data_inspection.py`) -/

/-- Non-null count of column `i` over the given rows (what `df.info()` reports
per column). -/
def colNonNull (rows : List (List Value)) (i : Nat) : Nat :=
  rows.countP (fun r => !(r.getD i Value.null).isNull)

/-- The per-column lines of `df.info()`: for each column in header order, its
name paired with its non-null count.  `i` is the index of the first remaining
column. -/
def infoEntriesAux (rows : List (List Value)) : List String → Nat → List (String × Nat)
  | [], _ => []
  | n :: ns, i => (n, colNonNull rows i) :: infoEntriesAux rows ns (i + 1)

/-- The text report printed by `df.info()`: total row and column counts and, per
column, the non-null count. -/
structure InfoReport where
  rowCount : Nat
  colCount : Nat
  entries : List (String × Nat)
deriving DecidableEq

/-- pandas `df.info()`: prints the index length, the column count and each
column's non-null count; the frame itself is read, never written. -/
def df_info (df : Table) : InfoReport × Table :=
  ({ rowCount := df.rows.length,
     colCount := df.header.length,
     entries := infoEntriesAux df.rows df.header 0 }, df)

/-- Embedding of `DataTypeInspectionStrategy.inspect(df)`: prints a heading and `df.info()`. -/
def DataTypeInspectionStrategy.inspect (df : Table) : InfoReport × Table :=
  df_info df

/-- The non-null count the report shows for column `c` (0 when the report has no
line for `c`); the first line with that name is the one read. -/
def lookupCount (entries : List (String × Nat)) (c : String) : Nat :=
  match entries.find? (fun x => x.1 = c) with
  | some x => x.2
  | none => 0

/-- The non-null count reported for column `c` by a schema-inspection report. -/
def InfoReport.nonNull (r : InfoReport) (c : String) : Nat :=
  lookupCount r.entries c

/-- One block of `df.describe()` output, reduced to the fields every claim needs:
per selected column, the name and the non-null count (the `count` line). The
numeric statistics (mean, std, quartiles) and frequency statistics are computed
by pandas from the same read-only data and are abstracted here. -/
structure DescribeReport where
  counts : List (String × Nat)
deriving DecidableEq

/-- Columns selected by `df.describe()` with default arguments: numeric ones. -/
def numericEntriesAux (df : Table) : List String → Nat → List (String × Nat)
  | [], _ => []
  | n :: ns, i =>
    if df.colIsNumeric i then (n, colNonNull df.rows i) :: numericEntriesAux df ns (i + 1)
    else numericEntriesAux df ns (i + 1)

/-- Columns selected by `df.describe(include=["O"])`: object (string) ones. -/
def objectEntriesAux (df : Table) : List String → Nat → List (String × Nat)
  | [], _ => []
  | n :: ns, i =>
    if df.colIsNumeric i then objectEntriesAux df ns (i + 1)
    else (n, colNonNull df.rows i) :: objectEntriesAux df ns (i + 1)

/-- pandas `df.describe()`: summary statistics for the numeric columns; the
frame is read, never written. -/
def df_describe (df : Table) : DescribeReport × Table :=
  ({ counts := numericEntriesAux df df.header 0 }, df)

/-- pandas `df.describe(include=["O"])`: summary statistics for the object
columns; the frame is read, never written. -/
def df_describe_object (df : Table) : DescribeReport × Table :=
  ({ counts := objectEntriesAux df df.header 0 }, df)

/-- Embedding of `SummaryStatisticsInspectionStrategy.inspect(df)`: prints `df.describe()`
then `df.describe(include=["O"])`. -/
def SummaryStatisticsInspectionStrategy.inspect (df : Table) :
    (DescribeReport × DescribeReport) × Table :=
  let (numRep, df1) := df_describe df
  let (catRep, df2) := df_describe_object df1
  ((numRep, catRep), df2)

/-! ### Missing-value injection (for the monotonicity claim) -/

/-- Holds when `v1` is `v2` with the value possibly replaced by a missing value. -/
def cellInj (v1 v2 : Value) : Bool :=
  decide (v1 = v2) || decide (v1 = Value.null)

/-- Holds when `r1` is `r2` with some cells replaced by missing values (same shape). -/
def rowInj : List Value → List Value → Bool
  | [], [] => true
  | v1 :: r1, v2 :: r2 => cellInj v1 v2 && rowInj r1 r2
  | _, _ => false

/-- Holds when `t1` is `t2` with some cells replaced by missing values (same shape). -/
def rowsInj : List (List Value) → List (List Value) → Bool
  | [], [] => true
  | r1 :: t1, r2 :: t2 => rowInj r1 r2 && rowsInj t1 t2
  | _, _ => false

/-- Holds when `df1` is `df2` with synthetic missing values injected into some cells:
same columns, same shape, and every cell either unchanged or made missing. -/
def tableInj (df1 df2 : Table) : Bool :=
  decide (df1.header = df2.header) && rowsInj df1.rows df2.rows

/-! ### Zip ingestion (`ingest_data.py`) -/

/-- A file sitting in a directory or in an archive: a name and (parsed) content.
Only files read back as CSV ever have their content inspected; carrying
`CSVData` for every file loses nothing. -/
structure FileEntry where
  name : String
  content : CSVData
deriving DecidableEq

/-- The filesystem the ingestor touches: zip archives by path, and directories
(by absolute path) with their files. -/
structure FileSys where
  archives : List (String × List FileEntry)
  dirs : List (String × List FileEntry)
deriving DecidableEq

/-- Model of `zipfile.ZipFile(p, "r")`: the entries of the archive at `p`, or `none` when
no readable archive is there. -/
def FileSys.getArchive (fs : FileSys) (p : String) : Option (List FileEntry) :=
  (fs.archives.find? (fun a => a.1 = p)).map (fun a => a.2)

/-- Model of `os.listdir(d)` (and any read of directory `d`): the files of `d`, or `none`
when the directory does not exist. -/
def FileSys.readDirFiles (fs : FileSys) (d : String) : Option (List FileEntry) :=
  (fs.dirs.find? (fun a => a.1 = d)).map (fun a => a.2)

/-- Model of `zip_ref.extractall(destDir)`: writes every archive entry into `destDir`,
overwriting files with the same name and leaving other pre-existing files in
place (the directory is created if missing, never cleared). -/
def extractAll (fs : FileSys) (entries : List FileEntry) (destDir : String) : FileSys :=
  let old := (fs.readDirFiles destDir).getD []
  let kept := old.filter (fun f => !(entries.any (fun en => en.name = f.name)))
  { fs with dirs := (destDir, kept ++ entries) :: fs.dirs.filter (fun a => !(a.1 = destDir)) }

/-- Reading the file named `name` inside directory `dir` (the path
`os.path.join(dir, name)`). -/
def FileSys.fileAt (fs : FileSys) (dir name : String) : Option CSVData :=
  (((fs.readDirFiles dir).getD []).find? (fun f => f.name = name)).map (fun f => f.content)

/-- Model of `pd.read_csv(os.path.join(dir, name))`: parse that file as a table, or fail
when it is absent. -/
def pd_read_csv (fs : FileSys) (dir name : String) : Option Table :=
  (fs.fileAt dir name).map readCsvTable

/-- Python's `str.endswith(sfx)`: the last `len(sfx)` characters of the string
equal `sfx` (when `sfx` is longer than the string, the result is `false`). -/
def strEndsWith (s sfx : String) : Bool :=
  decide (s.toList.drop (s.toList.length - sfx.toList.length) = sfx.toList)

/-- The literal extraction target the source passes to `extractall` and to
`os.path.join` (a Python string literal whose stray backslash escapes are kept
verbatim). -/
def EXTRACTION_DIR : String := "D:\\ML Projects\\House Price Prediction\\extracted_data"

/-- The directory containing `EXTRACTION_DIR`; `os.listdir("extracted_data")`
names the same directory as `EXTRACTION_DIR` exactly when the process runs with
this working directory. -/
def PROJECT_DIR : String := "D:\\ML Projects\\House Price Prediction"

/-- Resolution of a relative path against the current working directory, as the
OS does for `os.listdir("extracted_data")` (Windows separator). -/
def resolveRelative (cwd rel : String) : String := cwd ++ "\\" ++ rel

/-- Failures of `ingest`, named after the spec's error taxonomy.  The source
raises: `ValueError` "The provided file is not a .zip file" (`unsupportedFormat`,
also the factory's `ValueError`), `FileNotFoundError` "No CSV file found..."
(`noTabularFile`), `ValueError` "Multiple CSV files found..."
(`ambiguousTabular`); the library raises on a missing archive (`badArchive`),
a missing listing directory (`missingDir`) or a missing file handed to
`read_csv` (`readFailed`). -/
inductive IngestError where
  | unsupportedFormat
  | badArchive
  | missingDir
  | noTabularFile
  | ambiguousTabular
  | readFailed
deriving DecidableEq

/-- Embedding of `ZipDataIngestor.ingest(file_path)` from `ingest_data.py`, with the ambient
state (filesystem, process working directory) explicit:
check the `.zip` suffix; extract the archive into the literal
`EXTRACTION_DIR`; list the CWD-relative directory `"extracted_data"`; keep the
names ending in `".csv"`; demand exactly one; read it back from
`os.path.join(EXTRACTION_DIR, name)` into a table. -/
def ZipDataIngestor.ingest (fs : FileSys) (cwd : String) (file_path : String) :
    Except IngestError (FileSys × Table) :=
  if !(strEndsWith file_path ".zip") then Except.error IngestError.unsupportedFormat
  else
    match fs.getArchive file_path with
    | none => Except.error IngestError.badArchive
    | some entries =>
      let fs1 := extractAll fs entries EXTRACTION_DIR
      match fs1.readDirFiles (resolveRelative cwd "extracted_data") with
      | none => Except.error IngestError.missingDir
      | some listed =>
        let extracted_files := listed.map FileEntry.name
        let csv_files := extracted_files.filter (fun f => strEndsWith f ".csv")
        if csv_files.length = 0 then Except.error IngestError.noTabularFile
        else if csv_files.length > 1 then Except.error IngestError.ambiguousTabular
        else
          match csv_files.head? with
          | none => Except.error IngestError.noTabularFile
          | some c =>
            match pd_read_csv fs1 EXTRACTION_DIR c with
            | none => Except.error IngestError.readFailed
            | some df => Except.ok (fs1, df)

/-- The registered data ingestors; `.zip` is the only registered format. -/
inductive DataIngestor where
  | zipDataIngestor
deriving DecidableEq

/-- Embedding of `DataIngestorFactory.get_data_ingestor(file_extension)`: `.zip` yields the
zip ingestor, anything else raises `ValueError` (the spec's
`UnsupportedFormatError`) with no fallback. -/
def DataIngestorFactory.get_data_ingestor (file_extension : String) :
    Except IngestError DataIngestor :=
  if file_extension = ".zip" then Except.ok DataIngestor.zipDataIngestor
  else Except.error IngestError.unsupportedFormat

/-- Python `rfind`-style search: index of the last character satisfying `p`, or `-1`
(Python's `str.rfind` convention). -/
def rfindP (cs : List Char) (p : Char → Bool) : Int :=
  match ((cs.enum.filter (fun x => p x.2)).map (fun x => x.1)).getLast? with
  | some i => (i : Int)
  | none => -1

/-- Model of `os.path.splitext(path)[1]` (CPython `ntpath`/`genericpath` logic): the
suffix from the last dot of the basename, unless every character of the
basename before that dot is itself a dot, in which case the extension is empty
(so a file named exactly `".zip"` has extension `""`). -/
def splitextExt (path : String) : String :=
  let cs := path.toList
  let sepIndex := rfindP cs (fun c => c = '\\' || c = '/')
  let dotIndex := rfindP cs (fun c => c = '.')
  if sepIndex < dotIndex then
    let hasStem := (List.range cs.length).any
      (fun k => decide (sepIndex < (k : Int)) && decide ((k : Int) < dotIndex)
        && !(decide (cs.getD k '.' = '.')))
    if hasStem then String.mk (cs.drop dotIndex.toNat) else ""
  else ""

/-! ### Concrete data for witnesses and counterexamples -/

/-- The table of the spec's test scenario (section 8). -/
def scenarioTable : Table :=
  { header := ["Gr Liv Area", "SalePrice"],
    rows := [[Value.num 1000, Value.num 200000],
             [Value.num 1500, Value.num 250000],
             [Value.num 2000, Value.num 300000]] }

/-- The scenario table with one synthetic missing value injected into the
SalePrice column. -/
def scenarioTableNull : Table :=
  { header := ["Gr Liv Area", "SalePrice"],
    rows := [[Value.num 1000, Value.null],
             [Value.num 1500, Value.num 250000],
             [Value.num 2000, Value.num 300000]] }

/-- A one-column table used to request analysis on an absent column. -/
def tableA : Table := { header := ["a"], rows := [[Value.num 1]] }

/-- A small CSV: header of two names, two data rows. -/
def csvMain : CSVData :=
  { header := ["Order", "SalePrice"],
    dataRows := [[Value.num 1, Value.num 215000], [Value.num 2, Value.num 105000]] }

/-- A second, different CSV. -/
def csvExtra : CSVData :=
  { header := ["z"], dataRows := [[Value.num 9]] }

/-- A tabular archive entry. -/
def dataCsv : FileEntry := { name := "AmesHousing.csv", content := csvMain }

/-- A second tabular archive entry. -/
def extraCsv : FileEntry := { name := "extra.csv", content := csvExtra }

/-- A non-tabular archive entry (its parsed content is never consulted). -/
def readmeTxt : FileEntry := { name := "readme.txt", content := csvExtra }

/-- Filesystem with an archive holding exactly one CSV plus a non-CSV file. -/
def fsOne : FileSys :=
  { archives := [("D:\\data\\archive.zip", [readmeTxt, dataCsv])], dirs := [] }

/-- Filesystem with an archive holding no CSV. -/
def fsZero : FileSys :=
  { archives := [("D:\\data\\archive.zip", [readmeTxt])], dirs := [] }

/-- Filesystem with an archive holding two CSVs. -/
def fsMany : FileSys :=
  { archives := [("D:\\data\\archive.zip", [dataCsv, extraCsv])], dirs := [] }

/-- Filesystem with a single-CSV archive at the path `".zip"` (a file whose
entire basename is the suffix, so its splitext extension is empty). -/
def fsDotZip : FileSys :=
  { archives := [(".zip", [dataCsv])], dirs := [] }

/-- Filesystem for a process whose working directory is `C:\Users\sahil`: the
archive holds exactly one CSV, while the CWD-relative `extracted_data`
directory (a different directory from `EXTRACTION_DIR`) holds two stale CSVs. -/
def fsStale : FileSys :=
  { archives := [("D:\\data\\archive.zip", [dataCsv])],
    dirs := [("C:\\Users\\sahil\\extracted_data",
              [{ name := "old1.csv", content := csvExtra },
               { name := "old2.csv", content := csvExtra }])] }

/-! ## Theorems -/

/-- C6: for every Table and two feature names that exist as numeric columns,
the numeric-vs-numeric strategy's `analyze` completes without error, renders
feature1 on the x-axis against feature2 on the y-axis, and sets the title to
exactly "feature1 vs feature2" (with feature1/feature2 as x/y labels). -/
theorem c6_numeric_scatter (df : Table) (feature1 feature2 : String) (i j : Nat)
    (h1 : df.colIndex feature1 = some i) (h2 : df.colIndex feature2 = some j)
    (_hn1 : df.colIsNumeric i = true) (_hn2 : df.colIsNumeric j = true) :
    (NumericalVsNumericalAnalysis.analyze df feature1 feature2).1 =
      Except.ok
        { width := 10, height := 6, xcol := feature1, ycol := feature2,
          points := df.rows.map (fun r => (r.getD i Value.null, r.getD j Value.null)),
          title := feature1 ++ " vs " ++ feature2, xlabel := feature1, ylabel := feature2,
          xtickRotation := 0, shown := true } := by
  simp [NumericalVsNumericalAnalysis.analyze, sns_scatterplot, plt_figure, plt_show, h1, h2]

/-- Witness for C6 at the spec's section-8 scenario table. -/
theorem c6_numeric_scatter_witness :
    scenarioTable.colIndex "Gr Liv Area" = some 0 ∧
    scenarioTable.colIndex "SalePrice" = some 1 ∧
    scenarioTable.colIsNumeric 0 = true ∧
    scenarioTable.colIsNumeric 1 = true ∧
    (NumericalVsNumericalAnalysis.analyze scenarioTable "Gr Liv Area" "SalePrice").1 =
      Except.ok
        { width := 10, height := 6, xcol := "Gr Liv Area", ycol := "SalePrice",
          points := scenarioTable.rows.map (fun r => (r.getD 0 Value.null, r.getD 1 Value.null)),
          title := "Gr Liv Area vs SalePrice", xlabel := "Gr Liv Area", ylabel := "SalePrice",
          xtickRotation := 0, shown := true } :=
  ⟨by decide, by decide, by decide, by decide,
   c6_numeric_scatter scenarioTable "Gr Liv Area" "SalePrice" 0 1
     (by decide) (by decide) (by decide) (by decide)⟩

/-- C7: on every Table and feature pair, the categorical-vs-numeric strategy
produces exactly the numeric-vs-numeric strategy's rendering (same scatter,
title, axis labels — and the same error when one arises), differing only in
rotating the x-tick labels by 45 degrees; the frame state is the same. -/
theorem c7_categorical_is_rotated_numerical (df : Table) (feature1 feature2 : String) :
    CategoricalVsNumericalStrategyAnalysis.analyze df feature1 feature2 =
      ((NumericalVsNumericalAnalysis.analyze df feature1 feature2).1.map rotateXTicks45,
       (NumericalVsNumericalAnalysis.analyze df feature1 feature2).2) := by
  cases h1 : df.colIndex feature1 with
  | none =>
    simp [CategoricalVsNumericalStrategyAnalysis.analyze,
      NumericalVsNumericalAnalysis.analyze, sns_scatterplot, Except.map, h1]
  | some i =>
    cases h2 : df.colIndex feature2 with
    | none =>
      simp [CategoricalVsNumericalStrategyAnalysis.analyze,
        NumericalVsNumericalAnalysis.analyze, sns_scatterplot, Except.map, h1, h2]
    | some j =>
      simp [CategoricalVsNumericalStrategyAnalysis.analyze,
        NumericalVsNumericalAnalysis.analyze, sns_scatterplot, Except.map, h1, h2,
        plt_xticks, plt_show, rotateXTicks45]

/-- C9: every inspection strategy and every bivariate strategy consumes the
Table read-only — the frame threaded through the call comes back unchanged,
also when the call fails. -/
theorem c9_tables_read_only (df : Table) (feature1 feature2 : String) :
    (DataTypeInspectionStrategy.inspect df).2 = df ∧
    (SummaryStatisticsInspectionStrategy.inspect df).2 = df ∧
    (NumericalVsNumericalAnalysis.analyze df feature1 feature2).2 = df ∧
    (CategoricalVsNumericalStrategyAnalysis.analyze df feature1 feature2).2 = df := by
  refine ⟨rfl, rfl, ?_, ?_⟩ <;>
  · cases h1 : df.colIndex feature1 with
    | none =>
      simp [CategoricalVsNumericalStrategyAnalysis.analyze,
        NumericalVsNumericalAnalysis.analyze, sns_scatterplot, h1]
    | some i =>
      cases h2 : df.colIndex feature2 with
      | none =>
        simp [CategoricalVsNumericalStrategyAnalysis.analyze,
          NumericalVsNumericalAnalysis.analyze, sns_scatterplot, h1, h2]
      | some j =>
        simp [CategoricalVsNumericalStrategyAnalysis.analyze,
          NumericalVsNumericalAnalysis.analyze, sns_scatterplot, h1, h2]

/-- C4 (code bug): requesting analysis on the absent column "b" of a table with
single column "a" is answered by the plotting library's own error naming the
value it could not interpret, not by the spec's UnknownColumnError — the source
performs no column-existence check (the spec itself marks the check as a
recommended addition the reference code lacks). -/
theorem c4_absent_column_is_library_error :
    (NumericalVsNumericalAnalysis.analyze tableA "b" "a").1 =
      Except.error (AnalyzeError.libraryError "b") ∧
    (CategoricalVsNumericalStrategyAnalysis.analyze tableA "b" "a").1 =
      Except.error (AnalyzeError.libraryError "b") :=
  ⟨rfl, rfl⟩

/-- C3 (counterexample): the path ".zip" — a file whose whole basename is the
suffix — has splitext extension "" , which is not the registered ".zip" (the
factory would refuse it), yet `ingest` accepts the path and returns a Table
instead of raising UnsupportedFormatError: the suffix check `endswith(".zip")`
is not the extension check the claim states. -/
theorem c3_dotzip_counterexample :
    splitextExt ".zip" = "" ∧
    DataIngestorFactory.get_data_ingestor (splitextExt ".zip") =
      Except.error IngestError.unsupportedFormat ∧
    ZipDataIngestor.ingest fsDotZip PROJECT_DIR ".zip" =
      Except.ok (extractAll fsDotZip [dataCsv] EXTRACTION_DIR, readCsvTable csvMain) :=
  ⟨by decide, rfl, rfl⟩

/-- C3 (amended): for every extension string other than ".zip" the factory
raises UnsupportedFormatError and constructs no ingestor, and `ingest` raises
UnsupportedFormatError for every path that does not end with ".zip" (rather
than for every path whose splitext extension is unregistered: a path such as
".zip" ends with ".zip" while its extension is ""). -/
theorem c3_unregistered_rejected :
    (∀ file_extension : String, file_extension ≠ ".zip" →
      DataIngestorFactory.get_data_ingestor file_extension =
        Except.error IngestError.unsupportedFormat) ∧
    (∀ (fs : FileSys) (cwd file_path : String), strEndsWith file_path ".zip" = false →
      ZipDataIngestor.ingest fs cwd file_path = Except.error IngestError.unsupportedFormat) := by
  constructor
  · intro ext hne
    simp [DataIngestorFactory.get_data_ingestor, hne]
  · intro fs cwd p hp
    simp [ZipDataIngestor.ingest, hp]

/-- Witness for the amended C3: the extension ".txt" is refused by the factory,
and a ".txt" path is refused by ingest. -/
theorem c3_unregistered_rejected_witness :
    DataIngestorFactory.get_data_ingestor ".txt" =
      Except.error IngestError.unsupportedFormat ∧
    ZipDataIngestor.ingest fsOne PROJECT_DIR "D:\\data\\archive.txt" =
      Except.error IngestError.unsupportedFormat :=
  ⟨c3_unregistered_rejected.1 ".txt" (by decide),
   c3_unregistered_rejected.2 fsOne PROJECT_DIR "D:\\data\\archive.txt" (by decide)⟩

/-! Helper lemmas for the inspection report. -/

theorem colNonNull_le_length (rows : List (List Value)) (i : Nat) :
    colNonNull rows i ≤ rows.length :=
  List.countP_le_length _

theorem mem_infoEntriesAux_le (rows : List (List Value)) :
    ∀ (ns : List String) (k : Nat) (x : String × Nat),
      x ∈ infoEntriesAux rows ns k → x.2 ≤ rows.length := by
  intro ns
  induction ns with
  | nil => intro k x hx; cases hx
  | cons n t ih =>
    intro k x hx
    rcases List.mem_cons.mp hx with h | h
    · subst h; exact colNonNull_le_length rows k
    · exact ih (k + 1) x h

theorem lookupCount_infoEntries_le (rows : List (List Value)) (ns : List String)
    (k : Nat) (c : String) :
    lookupCount (infoEntriesAux rows ns k) c ≤ rows.length := by
  unfold lookupCount
  cases hf : (infoEntriesAux rows ns k).find? (fun x => x.1 = c) with
  | none => simp
  | some x =>
    simpa using mem_infoEntriesAux_le rows ns k x (List.mem_of_find?_eq_some hf)

theorem cellInj_getD {r1 r2 : List Value} (h : rowInj r1 r2 = true) :
    ∀ i : Nat, r1.getD i Value.null = Value.null ∨ r1.getD i Value.null = r2.getD i Value.null := by
  induction r1 generalizing r2 with
  | nil => intro i; left; rfl
  | cons v1 t1 ih =>
    cases r2 with
    | nil => simp [rowInj] at h
    | cons v2 t2 =>
      rw [rowInj, Bool.and_eq_true] at h
      intro i
      cases i with
      | zero =>
        have hc := h.1
        rw [cellInj, Bool.or_eq_true, decide_eq_true_eq, decide_eq_true_eq] at hc
        rcases hc with h' | h'
        · right; simpa [List.getD] using h'
        · left; simpa [List.getD] using h'
      | succ k => simpa [List.getD] using ih h.2 k

theorem colNonNull_mono {t1 t2 : List (List Value)} (h : rowsInj t1 t2 = true) (i : Nat) :
    colNonNull t1 i ≤ colNonNull t2 i := by
  induction t1 generalizing t2 with
  | nil => simp [colNonNull]
  | cons r1 s1 ih =>
    cases t2 with
    | nil => simp [rowsInj] at h
    | cons r2 s2 =>
      rw [rowsInj, Bool.and_eq_true] at h
      have hrec := ih h.2
      have himp : (!(r1.getD i Value.null).isNull) = true →
          (!(r2.getD i Value.null).isNull) = true := by
        intro h1
        rcases cellInj_getD h.1 i with hnull | heq
        · rw [hnull] at h1; simp [Value.isNull] at h1
        · rw [heq] at h1; exact h1
      rw [colNonNull, colNonNull, List.countP_cons, List.countP_cons]
      by_cases h1 : (!(r1.getD i Value.null).isNull) = true
      · rw [if_pos h1, if_pos (himp h1)]
        exact Nat.add_le_add hrec (Nat.le_refl 1)
      · rw [if_neg h1]
        have : colNonNull s1 i + 0 ≤ colNonNull s2 i := by simpa using hrec
        exact Nat.le_trans this (Nat.le_add_right _ _)

theorem lookupCount_infoEntries_mono {t1 t2 : List (List Value)} (h : rowsInj t1 t2 = true) :
    ∀ (ns : List String) (k : Nat) (c : String),
      lookupCount (infoEntriesAux t1 ns k) c ≤ lookupCount (infoEntriesAux t2 ns k) c := by
  intro ns
  induction ns with
  | nil => intro k c; simp [infoEntriesAux, lookupCount]
  | cons n t ih =>
    intro k c
    by_cases hn : n = c
    · rw [infoEntriesAux, infoEntriesAux, lookupCount, lookupCount,
        List.find?_cons_of_pos _ (by simpa using hn), List.find?_cons_of_pos _ (by simpa using hn)]
      simpa using colNonNull_mono h k
    · rw [infoEntriesAux, infoEntriesAux, lookupCount, lookupCount,
        List.find?_cons_of_neg _ (by simpa using hn), List.find?_cons_of_neg _ (by simpa using hn)]
      exact ih (k + 1) c

/-- C8: for every Table and column name, the non-null count the schema
inspection strategy reports never exceeds the reported row count; and when a
second Table is the first with synthetic missing values injected (same columns,
same shape, each cell unchanged or nulled), the reported non-null count does
not increase. -/
theorem c8_nonnull_bounded_and_monotone (df df1 : Table) (c : String)
    (hinj : tableInj df1 df = true) :
    (DataTypeInspectionStrategy.inspect df).1.nonNull c ≤
      (DataTypeInspectionStrategy.inspect df).1.rowCount ∧
    (DataTypeInspectionStrategy.inspect df1).1.nonNull c ≤
      (DataTypeInspectionStrategy.inspect df).1.nonNull c := by
  rw [tableInj, Bool.and_eq_true, decide_eq_true_eq] at hinj
  constructor
  · exact lookupCount_infoEntries_le df.rows df.header 0 c
  · show lookupCount (infoEntriesAux df1.rows df1.header 0) c ≤
      lookupCount (infoEntriesAux df.rows df.header 0) c
    rw [hinj.1]
    exact lookupCount_infoEntries_mono hinj.2 df.header 0 c

/-- Witness for C8: injecting one missing value into the SalePrice column of
the scenario table keeps the reported count bounded and non-increasing. -/
theorem c8_nonnull_bounded_and_monotone_witness :
    tableInj scenarioTableNull scenarioTable = true ∧
    ((DataTypeInspectionStrategy.inspect scenarioTable).1.nonNull "SalePrice" ≤
       (DataTypeInspectionStrategy.inspect scenarioTable).1.rowCount ∧
     (DataTypeInspectionStrategy.inspect scenarioTableNull).1.nonNull "SalePrice" ≤
       (DataTypeInspectionStrategy.inspect scenarioTable).1.nonNull "SalePrice") :=
  ⟨by decide, c8_nonnull_bounded_and_monotone scenarioTable scenarioTableNull "SalePrice" (by decide)⟩

/-! Helper lemmas for ingestion. -/

theorem find?_append_of_left_none {α : Type} (p : α → Bool) :
    ∀ (l1 l2 : List α), l1.find? p = none → (l1 ++ l2).find? p = l2.find? p := by
  intro l1
  induction l1 with
  | nil => intro l2 _; rfl
  | cons a t ih =>
    intro l2 h
    cases hpa : p a with
    | true => rw [List.find?_cons_of_pos _ hpa] at h; cases h
    | false =>
      rw [List.find?_cons_of_neg _ (by simp [hpa])] at h
      rw [List.cons_append, List.find?_cons_of_neg _ (by simp [hpa])]
      exact ih l2 h

theorem find?_eq_some_of_unique {α : Type} (p : α → Bool) :
    ∀ (l : List α) (x : α), x ∈ l → p x = true → (∀ y ∈ l, p y = true → y = x) →
      l.find? p = some x := by
  intro l
  induction l with
  | nil => intro x hx; cases hx
  | cons a t ih =>
    intro x hx hpx huniq
    cases hpa : p a with
    | true =>
      have ha : a = x := huniq a (List.mem_cons_self a t) hpa
      subst ha
      exact List.find?_cons_of_pos _ hpa
    | false =>
      rw [List.find?_cons_of_neg _ (by simp [hpa])]
      refine ih x ?_ hpx (fun y hy hpy => huniq y (List.mem_cons_of_mem a hy) hpy)
      rcases List.mem_cons.mp hx with h | h
      · subst h; rw [hpa] at hpx; cases hpx
      · exact h

theorem map_name_filter (p : String → Bool) (l : List FileEntry) :
    (l.map FileEntry.name).filter p = (l.filter (fun f => p f.name)).map FileEntry.name := by
  induction l with
  | nil => rfl
  | cons f t ih =>
    by_cases h : p f.name = true
    · simp [List.filter_cons, h, ih]
    · simp [List.filter_cons, h, ih]

theorem kept_csv_free (old entries : List FileEntry)
    (hclean : old.filter (fun f => strEndsWith f.name ".csv") = []) :
    (old.filter (fun f => !(entries.any (fun en => en.name = f.name)))).filter
      (fun f => strEndsWith f.name ".csv") = [] := by
  rw [List.filter_eq_nil_iff] at hclean ⊢
  intro f hf
  exact hclean f (List.mem_of_mem_filter hf)

theorem readDirFiles_extractAll (fs : FileSys) (entries : List FileEntry) (d : String) :
    (extractAll fs entries d).readDirFiles d =
      some ((((fs.readDirFiles d).getD []).filter
        (fun f => !(entries.any (fun en => en.name = f.name)))) ++ entries) := by
  unfold extractAll FileSys.readDirFiles
  rw [List.find?_cons_of_pos _ (by simp)]
  rfl

/-- After the environment hypotheses (working directory is the project
directory; no stray CSV in the extraction directory), `ingest` reduces to the
exactly-one-CSV arbitration over the archive entries. -/
theorem ingest_reduce (fs : FileSys) (file_path : String) (entries : List FileEntry)
    (hzip : strEndsWith file_path ".zip" = true)
    (harch : fs.getArchive file_path = some entries)
    (hclean : ((fs.readDirFiles EXTRACTION_DIR).getD []).filter
      (fun f => strEndsWith f.name ".csv") = []) :
    ZipDataIngestor.ingest fs PROJECT_DIR file_path =
      (let csvs := (entries.filter (fun f => strEndsWith f.name ".csv")).map FileEntry.name
       let fs1 := extractAll fs entries EXTRACTION_DIR
       if csvs.length = 0 then Except.error IngestError.noTabularFile
       else if csvs.length > 1 then Except.error IngestError.ambiguousTabular
       else
         match csvs.head? with
         | none => Except.error IngestError.noTabularFile
         | some c =>
           match pd_read_csv fs1 EXTRACTION_DIR c with
           | none => Except.error IngestError.readFailed
           | some df => Except.ok (fs1, df)) := by
  unfold ZipDataIngestor.ingest
  rw [hzip, harch,
    show resolveRelative PROJECT_DIR "extracted_data" = EXTRACTION_DIR from rfl]
  simp only [Bool.not_true, Bool.false_eq_true, if_false]
  rw [readDirFiles_extractAll]
  have hcsv : (((((fs.readDirFiles EXTRACTION_DIR).getD []).filter
        (fun f => !(entries.any (fun en => en.name = f.name)))) ++ entries).map
          FileEntry.name).filter (fun f => strEndsWith f ".csv")
      = (entries.filter (fun f => strEndsWith f.name ".csv")).map FileEntry.name := by
    rw [List.map_append, List.filter_append, map_name_filter, map_name_filter,
      kept_csv_free _ _ hclean]
    rfl
  simp only [Bool.not_true, Bool.false_eq_true, if_false, hcsv]

theorem read_back (fs : FileSys) (entries : List FileEntry) (e : FileEntry)
    (hone : entries.filter (fun f => strEndsWith f.name ".csv") = [e]) :
    pd_read_csv (extractAll fs entries EXTRACTION_DIR) EXTRACTION_DIR e.name =
      some (readCsvTable e.content) := by
  have hemem : e ∈ entries.filter (fun f => strEndsWith f.name ".csv") := by
    rw [hone]; exact List.mem_singleton_self e
  have he : e ∈ entries := (List.mem_filter.mp hemem).1
  have hecsv : strEndsWith e.name ".csv" = true := by
    simpa using (List.mem_filter.mp hemem).2
  unfold pd_read_csv FileSys.fileAt
  rw [readDirFiles_extractAll]
  have hkept : (((fs.readDirFiles EXTRACTION_DIR).getD []).filter
      (fun f => !(entries.any (fun en => en.name = f.name)))).find?
        (fun f => f.name = e.name) = none := by
    rw [List.find?_eq_none]
    intro f hf hpf
    have hany : (entries.any (fun en => en.name = f.name)) = false := by
      simpa using (List.mem_filter.mp hf).2
    have : entries.any (fun en => en.name = f.name) = true :=
      List.any_eq_true.mpr ⟨e, he, by simp_all⟩
    rw [this] at hany
    cases hany
  have hfind : entries.find? (fun f => f.name = e.name) = some e := by
    refine find?_eq_some_of_unique _ entries e he (by simp) ?_
    intro y hy hpy
    have hycsv : strEndsWith y.name ".csv" = true := by
      rw [decide_eq_true_eq] at hpy
      rw [hpy]; exact hecsv
    have : y ∈ entries.filter (fun f => strEndsWith f.name ".csv") :=
      List.mem_filter.mpr ⟨hy, hycsv⟩
    rw [hone] at this
    exact List.mem_singleton.mp this
  rw [Option.getD_some, find?_append_of_left_none _ _ _ hkept, hfind]
  rfl

/-- With the environment hypotheses and an archive holding exactly one
CSV-named entry, `ingest` extracts the archive and returns the table read from
that entry. -/
theorem ingest_ok (fs : FileSys) (file_path : String) (entries : List FileEntry) (e : FileEntry)
    (hzip : strEndsWith file_path ".zip" = true)
    (harch : fs.getArchive file_path = some entries)
    (hclean : ((fs.readDirFiles EXTRACTION_DIR).getD []).filter
      (fun f => strEndsWith f.name ".csv") = [])
    (hone : entries.filter (fun f => strEndsWith f.name ".csv") = [e]) :
    ZipDataIngestor.ingest fs PROJECT_DIR file_path =
      Except.ok (extractAll fs entries EXTRACTION_DIR, readCsvTable e.content) := by
  rw [ingest_reduce fs file_path entries hzip harch hclean, hone]
  simp only [List.map_cons, List.map_nil, List.length_cons, List.length_nil, List.head?_cons]
  rw [read_back fs entries e hone]
  simp

/-- C1: when the process runs from the project directory with a CSV-free
extraction directory, for every archive path ending in ".zip" whose archive
holds exactly one CSV-named entry, `ingest` returns a Table whose row count is
the source CSV's data row count and whose column names are the source header's
names in order. -/
theorem c1_ingest_returns_source_table (fs : FileSys) (cwd file_path : String)
    (entries : List FileEntry) (e : FileEntry)
    (hcwd : cwd = PROJECT_DIR)
    (hzip : strEndsWith file_path ".zip" = true)
    (harch : fs.getArchive file_path = some entries)
    (hclean : ((fs.readDirFiles EXTRACTION_DIR).getD []).filter
      (fun f => strEndsWith f.name ".csv") = [])
    (hone : entries.filter (fun f => strEndsWith f.name ".csv") = [e]) :
    ∃ fs1 t, ZipDataIngestor.ingest fs cwd file_path = Except.ok (fs1, t) ∧
      t.rows.length = e.content.dataRows.length ∧
      t.header = e.content.header := by
  subst hcwd
  exact ⟨_, _, ingest_ok fs file_path entries e hzip harch hclean hone, rfl, rfl⟩

/-- Witness for C1 at a two-entry archive whose single CSV has a two-name
header and two data rows. -/
theorem c1_ingest_returns_source_table_witness :
    strEndsWith "D:\\data\\archive.zip" ".zip" = true ∧
    fsOne.getArchive "D:\\data\\archive.zip" = some [readmeTxt, dataCsv] ∧
    ((fsOne.readDirFiles EXTRACTION_DIR).getD []).filter
      (fun f => strEndsWith f.name ".csv") = [] ∧
    [readmeTxt, dataCsv].filter (fun f => strEndsWith f.name ".csv") = [dataCsv] ∧
    (∃ fs1 t, ZipDataIngestor.ingest fsOne PROJECT_DIR "D:\\data\\archive.zip" =
        Except.ok (fs1, t) ∧
      t.rows.length = dataCsv.content.dataRows.length ∧
      t.header = dataCsv.content.header) :=
  ⟨by decide, by decide, by decide, by decide,
   c1_ingest_returns_source_table fsOne PROJECT_DIR "D:\\data\\archive.zip"
     [readmeTxt, dataCsv] dataCsv rfl (by decide) (by decide) (by decide) (by decide)⟩

/-- C2: under the same environment hypotheses, an archive whose CSV-named entry
count is not one makes `ingest` fail — with NoTabularFileFoundError
(FileNotFoundError in the source) when the count is zero and
AmbiguousTabularFileError (ValueError in the source) when it is two or more —
and so no Table is returned. -/
theorem c2_zero_or_many_csvs_error (fs : FileSys) (cwd file_path : String)
    (entries : List FileEntry)
    (hcwd : cwd = PROJECT_DIR)
    (hzip : strEndsWith file_path ".zip" = true)
    (harch : fs.getArchive file_path = some entries)
    (hclean : ((fs.readDirFiles EXTRACTION_DIR).getD []).filter
      (fun f => strEndsWith f.name ".csv") = [])
    (hnot1 : (entries.filter (fun f => strEndsWith f.name ".csv")).length ≠ 1) :
    ZipDataIngestor.ingest fs cwd file_path =
      Except.error
        (if (entries.filter (fun f => strEndsWith f.name ".csv")).length = 0
         then IngestError.noTabularFile
         else IngestError.ambiguousTabular) := by
  subst hcwd
  rw [ingest_reduce fs file_path entries hzip harch hclean]
  simp only [List.length_map]
  by_cases h0 : (entries.filter (fun f => strEndsWith f.name ".csv")).length = 0
  · simp [h0]
  · have h2 : (entries.filter (fun f => strEndsWith f.name ".csv")).length > 1 := by
      omega
    simp [h0, h2, Nat.pos_iff_ne_zero]

/-- Witness for C2: a zero-CSV archive yields NoTabularFileFoundError and a
two-CSV archive yields AmbiguousTabularFileError. -/
theorem c2_zero_or_many_csvs_error_witness :
    ZipDataIngestor.ingest fsZero PROJECT_DIR "D:\\data\\archive.zip" =
      Except.error IngestError.noTabularFile ∧
    ZipDataIngestor.ingest fsMany PROJECT_DIR "D:\\data\\archive.zip" =
      Except.error IngestError.ambiguousTabular := by
  constructor
  · have h := c2_zero_or_many_csvs_error fsZero PROJECT_DIR "D:\\data\\archive.zip"
      [readmeTxt] rfl (by decide) (by decide) (by decide) (by decide)
    simpa using h
  · have h := c2_zero_or_many_csvs_error fsMany PROJECT_DIR "D:\\data\\archive.zip"
      [dataCsv, extraCsv] rfl (by decide) (by decide) (by decide) (by decide)
    simpa using h

/-- C10: an extracted file is recognized as tabular exactly by the ".csv" name
suffix — an archive carrying one CSV-named entry among any number of non-CSV
entries (before and after it) ingests successfully without
AmbiguousTabularFileError, returning the CSV entry's table. -/
theorem c10_non_csv_entries_ignored (fs : FileSys) (cwd file_path : String)
    (pre post : List FileEntry) (e : FileEntry)
    (hcwd : cwd = PROJECT_DIR)
    (hzip : strEndsWith file_path ".zip" = true)
    (harch : fs.getArchive file_path = some (pre ++ e :: post))
    (hclean : ((fs.readDirFiles EXTRACTION_DIR).getD []).filter
      (fun f => strEndsWith f.name ".csv") = [])
    (hpre : pre.filter (fun f => strEndsWith f.name ".csv") = [])
    (hpost : post.filter (fun f => strEndsWith f.name ".csv") = [])
    (hecsv : strEndsWith e.name ".csv" = true) :
    ∃ fs1, ZipDataIngestor.ingest fs cwd file_path =
      Except.ok (fs1, readCsvTable e.content) := by
  subst hcwd
  have hone : (pre ++ e :: post).filter (fun f => strEndsWith f.name ".csv") = [e] := by
    rw [List.filter_append, hpre, List.nil_append, List.filter_cons, if_pos (by simpa using hecsv),
      hpost]
  exact ⟨_, ingest_ok fs file_path _ e hzip harch hclean hone⟩

/-- Witness for C10: the archive of `fsOne` carries "readme.txt" before its one
CSV entry, and ingestion still succeeds with that CSV's table. -/
theorem c10_non_csv_entries_ignored_witness :
    [readmeTxt].filter (fun f => strEndsWith f.name ".csv") = [] ∧
    strEndsWith dataCsv.name ".csv" = true ∧
    (∃ fs1, ZipDataIngestor.ingest fsOne PROJECT_DIR "D:\\data\\archive.zip" =
      Except.ok (fs1, readCsvTable dataCsv.content)) :=
  ⟨by decide, by decide,
   c10_non_csv_entries_ignored fsOne PROJECT_DIR "D:\\data\\archive.zip"
     [readmeTxt] [] dataCsv rfl (by decide) (by decide) (by decide) (by decide)
     (by decide) (by decide)⟩

/-- C5 (code bug): run from working directory `C:\Users\sahil`, `ingest` writes
the archive's single CSV into the absolute `EXTRACTION_DIR` (whose listing then
holds exactly that one CSV name), yet reports AmbiguousTabularFileError,
because it lists the CWD-relative directory "extracted_data" — a different
directory, here holding two stale CSVs — instead of the directory it wrote to;
the write, list and read directories are not all the same. -/
theorem c5_listing_directory_differs_from_write_directory :
    [dataCsv].filter (fun f => strEndsWith f.name ".csv") = [dataCsv] ∧
    fsStale.getArchive "D:\\data\\archive.zip" = some [dataCsv] ∧
    (((extractAll fsStale [dataCsv] EXTRACTION_DIR).readDirFiles EXTRACTION_DIR).getD []).map
      FileEntry.name = ["AmesHousing.csv"] ∧
    resolveRelative "C:\\Users\\sahil" "extracted_data" ≠ EXTRACTION_DIR ∧
    ZipDataIngestor.ingest fsStale "C:\\Users\\sahil" "D:\\data\\archive.zip" =
      Except.error IngestError.ambiguousTabular :=
  ⟨by decide, rfl, by decide, by decide, rfl⟩

end HousePrice
